import Mathlib

/-!
Shallow embedding of the batched SQLite-to-PostgreSQL ETL pipeline in
`sqlite_to_postgres/load_data.py` (record construction, extraction,
transformation, loading, and the post-transfer verification queries),
together with the record declarations of `sqlite_to_postgres/models.py`.
-/

namespace SqliteToPostgres

/-- Python runtime values that occur in the pipeline's rows: text, a parsed
128-bit UUID (as its integer value), an integer/real number, and None. -/
inductive Val where
  | vStr : String → Val
  | vUuid : Nat → Val
  | vInt : Int → Val
  | vNone : Val
  deriving DecidableEq

/-- A raw row mapping (Python `dict(sqlite3.Row)`): association list from
column name to value; keys are unique in a Python dict. -/
abbrev Row := List (String × Val)

/-- Dictionary lookup (`d[k]` / keyword binding): first entry with key `k`. -/
def pyLookup (kwargs : Row) (k : String) : Option Val :=
  (kwargs.find? (fun kv => kv.fst == k)).map (fun kv => kv.snd)

/-- Lookup with a None default; only used where presence was already checked. -/
def pyGet (kwargs : Row) (k : String) : Val :=
  (pyLookup kwargs k).getD Val.vNone

/-- Whether `pat` occurs at the head of `s` (used by string replacement). -/
def matchesAt : List Char → List Char → Bool
  | [], _ => true
  | _ :: _, [] => false
  | p :: ps, c :: cs => p == c && matchesAt ps cs

/-- Fuel-indexed worker for `replaceAll`; the fuel is always at least the
length of the text, so the fuel-exhausted branch is never taken. -/
def replaceAllAux (pat : List Char) : Nat → List Char → List Char
  | 0, s => s
  | _ + 1, [] => []
  | fuel + 1, c :: cs =>
    if (pat.length != 0) && matchesAt pat (c :: cs) then
      replaceAllAux pat fuel (List.drop (pat.length - 1) cs)
    else
      c :: replaceAllAux pat fuel cs

/-- Python `s.replace(pat, '')`: delete every (left-to-right, non-overlapping)
occurrence of `pat` in `s`. -/
def replaceAll (pat : List Char) (s : List Char) : List Char :=
  replaceAllAux pat s.length s

/-- The two brace characters stripped by `str.strip` in UUID parsing. -/
def isBrace (c : Char) : Bool :=
  c == Char.ofNat 123 || c == Char.ofNat 125

/-- Python `s.strip(braces)`: drop leading and trailing brace characters. -/
def stripBraces (s : List Char) : List Char :=
  (((s.dropWhile isBrace).reverse).dropWhile isBrace).reverse

/-- Value of one hexadecimal digit, or `none` for a non-hex character. -/
def hexVal (c : Char) : Option Nat :=
  if 48 ≤ c.toNat && c.toNat ≤ 57 then some (c.toNat - 48)
  else if 97 ≤ c.toNat && c.toNat ≤ 102 then some (c.toNat - 87)
  else if 65 ≤ c.toNat && c.toNat ≤ 70 then some (c.toNat - 55)
  else none

/-- Parse a list of hex digits into a `Nat`, failing on a non-hex character. -/
def parseHexAux : List Char → Nat → Option Nat
  | [], acc => some acc
  | c :: cs, acc =>
    match hexVal c with
    | some d => parseHexAux cs (acc * 16 + d)
    | none => none

/-- Python `uuid.UUID(s)` on a string argument: drop `urn:`/`uuid:` markers,
strip braces, remove hyphens, require exactly 32 hex digits, read as hex.
Returns `none` where CPython raises `ValueError`. -/
def parseUUID (s : String) : Option Nat :=
  let t1 := replaceAll "uuid:".data (replaceAll "urn:".data s.data)
  let t2 := replaceAll "-".data (stripBraces t1)
  if t2.length == 32 then parseHexAux t2 0 else none

deriving instance DecidableEq for Except

/-- The exception classes record construction can raise in `load_data.py`:
`TypeError` (dataclass `__init__` given a wrong keyword set), `ValueError`
(`UUID(...)` on a non-convertible string), `AttributeError` (`self.id` read
before being set in `FilmWork.__init__`). -/
inductive PyErr where
  | typeError
  | valueError
  | attributeError
  deriving DecidableEq

/-- The `__post_init__` body shared by the dataclass record types:
`if isinstance(self.id, str): self.id = UUID(self.id)`. Non-string values
pass through untouched; an unparseable string raises `ValueError`. -/
def convertId (v : Val) : Except PyErr Val :=
  match v with
  | Val.vStr s =>
    match parseUUID s with
    | some n => Except.ok (Val.vUuid n)
    | none => Except.error PyErr.valueError
  | other => Except.ok other

/-- Declared fields of the `FilmWork` dataclass in `load_data.py`
(lines 90-95): six fields, no `created_at`/`updated_at`. -/
def filmWorkFields : List String :=
  ["id", "title", "description", "creation_date", "rating", "type"]

/-- Declared fields of `Genre` in `load_data.py` (lines 125-129). -/
def genreFields : List String :=
  ["id", "name", "description", "created_at", "updated_at"]

/-- Declared fields of `GenreFilmWork` in `load_data.py` (lines 149-152). -/
def genreFilmWorkFields : List String :=
  ["id", "genre_id", "film_work_id", "created_at"]

/-- Declared fields of `Person` in `load_data.py` (lines 172-175). -/
def personFields : List String :=
  ["id", "full_name", "created_at", "updated_at"]

/-- Declared fields of `PersonFilmWork` in `load_data.py` (lines 196-200). -/
def personFilmWorkFields : List String :=
  ["id", "film_work_id", "person_id", "role", "created_at"]

/-- The `FilmWork` record of `load_data.py` (`@dataclass(init=False)`): its
custom `__init__` sets only the recognized attributes it is given, so each
attribute slot may be left unset; `Option` models a possibly-unset slot. -/
structure FilmWork where
  id : Option Val
  title : Option Val
  description : Option Val
  creation_date : Option Val
  rating : Option Val
  type : Option Val
  deriving DecidableEq

/-- The `Genre` record of `load_data.py`: a plain dataclass, every field is
bound by the generated `__init__`. Python does not check field types, so each
field holds an arbitrary value. -/
structure Genre where
  id : Val
  name : Val
  description : Val
  created_at : Val
  updated_at : Val
  deriving DecidableEq

/-- The `GenreFilmWork` record of `load_data.py`. -/
structure GenreFilmWork where
  id : Val
  genre_id : Val
  film_work_id : Val
  created_at : Val
  deriving DecidableEq

/-- The `Person` record of `load_data.py`. -/
structure Person where
  id : Val
  full_name : Val
  created_at : Val
  updated_at : Val
  deriving DecidableEq

/-- The `PersonFilmWork` record of `load_data.py`. -/
structure PersonFilmWork where
  id : Val
  film_work_id : Val
  person_id : Val
  role : Val
  created_at : Val
  deriving DecidableEq

/-- Keyword check performed by a generated dataclass `__init__` called as
`Cls(**kwargs)`: every keyword must be a declared field (else `TypeError:
unexpected keyword argument`) and every declared field must be supplied
(else `TypeError: missing required positional argument`). -/
def dataclassCheck (fields : List String) (kwargs : Row) : Bool :=
  kwargs.all (fun kv => fields.contains kv.fst) &&
    fields.all (fun f => (pyLookup kwargs f).isSome)

/-- `Genre(**kwargs)`: generated `__init__` binds each declared field from the
keywords (after `dataclassCheck`), then `__post_init__` parses `id` when it is
a string. The `pyGet` defaults are unreachable: the check guarantees presence. -/
def genreInit (kwargs : Row) : Except PyErr Genre :=
  if dataclassCheck genreFields kwargs then
    (convertId (pyGet kwargs "id")).map (fun i =>
      ⟨i, pyGet kwargs "name", pyGet kwargs "description",
        pyGet kwargs "created_at", pyGet kwargs "updated_at"⟩)
  else Except.error PyErr.typeError

/-- `GenreFilmWork(**kwargs)`: note `__post_init__` converts only `id`;
`genre_id` and `film_work_id` are bound exactly as supplied. -/
def genreFilmWorkInit (kwargs : Row) : Except PyErr GenreFilmWork :=
  if dataclassCheck genreFilmWorkFields kwargs then
    (convertId (pyGet kwargs "id")).map (fun i =>
      ⟨i, pyGet kwargs "genre_id", pyGet kwargs "film_work_id",
        pyGet kwargs "created_at"⟩)
  else Except.error PyErr.typeError

/-- `Person(**kwargs)`. -/
def personInit (kwargs : Row) : Except PyErr Person :=
  if dataclassCheck personFields kwargs then
    (convertId (pyGet kwargs "id")).map (fun i =>
      ⟨i, pyGet kwargs "full_name", pyGet kwargs "created_at",
        pyGet kwargs "updated_at"⟩)
  else Except.error PyErr.typeError

/-- `PersonFilmWork(**kwargs)`: only `id` is converted; `film_work_id` and
`person_id` are bound exactly as supplied. -/
def personFilmWorkInit (kwargs : Row) : Except PyErr PersonFilmWork :=
  if dataclassCheck personFilmWorkFields kwargs then
    (convertId (pyGet kwargs "id")).map (fun i =>
      ⟨i, pyGet kwargs "film_work_id", pyGet kwargs "person_id",
        pyGet kwargs "role", pyGet kwargs "created_at"⟩)
  else Except.error PyErr.typeError

/-- The attribute-setting loop of `FilmWork.__init__`: keep exactly the
keywords whose name is a declared field (extra keys are dropped silently). -/
def filmWorkAttrs (kwargs : Row) : Row :=
  kwargs.filter (fun kv => filmWorkFields.contains kv.fst)

/-- Build a `FilmWork` from already-filtered attributes, then run the tail of
`__init__`: reading `self.id` raises `AttributeError` if it was never set;
a string id is parsed with `UUID(...)`. -/
def filmWorkMake (attrs : Row) : Except PyErr FilmWork :=
  match pyLookup attrs "id" with
  | none => Except.error PyErr.attributeError
  | some v =>
    (convertId v).map (fun i =>
      ⟨some i, pyLookup attrs "title", pyLookup attrs "description",
        pyLookup attrs "creation_date", pyLookup attrs "rating",
        pyLookup attrs "type"⟩)

/-- `FilmWork(**kwargs)` in `load_data.py` (lines 97-109): filter to the
recognized keys, set those attributes, then normalize `id`. -/
def filmWorkInit (kwargs : Row) : Except PyErr FilmWork :=
  filmWorkMake (filmWorkAttrs kwargs)

/-- `dataclasses.astuple` on a `Genre`: field values in declaration order. -/
def Genre.astuple (g : Genre) : List Val :=
  [g.id, g.name, g.description, g.created_at, g.updated_at]

/-- `dataclasses.astuple` on a `GenreFilmWork`. -/
def GenreFilmWork.astuple (g : GenreFilmWork) : List Val :=
  [g.id, g.genre_id, g.film_work_id, g.created_at]

/-- `dataclasses.astuple` on a `Person`. -/
def Person.astuple (p : Person) : List Val :=
  [p.id, p.full_name, p.created_at, p.updated_at]

/-- `dataclasses.astuple` on a `PersonFilmWork`. -/
def PersonFilmWork.astuple (p : PersonFilmWork) : List Val :=
  [p.id, p.film_work_id, p.person_id, p.role, p.created_at]

/-- `dataclasses.astuple` on a `FilmWork`: the six declared attribute slots in
declaration order (each `Option` slot is set on every record a load handles). -/
def FilmWork.astuple (f : FilmWork) : List (Option Val) :=
  [f.id, f.title, f.description, f.creation_date, f.rating, f.type]

/-- One expression of an INSERT's VALUES list: either a `%s` placeholder bound
from the record tuple, or the literal destination-clock call `NOW()`. -/
inductive ValueExpr where
  | param
  | nowCall
  deriving DecidableEq

/-- Shape of one INSERT statement emitted by a load function: target table,
column list, VALUES expressions (positionally matching the columns), and the
`ON CONFLICT (target) DO NOTHING` clause. -/
structure InsertQuery where
  table : String
  columns : List String
  values : List ValueExpr
  conflictTarget : List String
  conflictDoNothing : Bool
  deriving DecidableEq

/-- The INSERT of `load_data_film_work` (lines 307-317): six placeholders for
the six record fields, then `NOW(), NOW()` for `created`/`modified`. -/
def filmWorkInsertQuery : InsertQuery :=
  ⟨"film_work",
    ["id", "title", "description", "creation_date", "rating", "type",
      "created", "modified"],
    [ValueExpr.param, ValueExpr.param, ValueExpr.param, ValueExpr.param,
      ValueExpr.param, ValueExpr.param, ValueExpr.nowCall, ValueExpr.nowCall],
    ["id"], true⟩

/-- The INSERT of `load_data_genre` (lines 339-346): five placeholders, so
`created`/`modified` are bound from the record's `created_at`/`updated_at`. -/
def genreInsertQuery : InsertQuery :=
  ⟨"genre",
    ["id", "name", "description", "created", "modified"],
    [ValueExpr.param, ValueExpr.param, ValueExpr.param, ValueExpr.param,
      ValueExpr.param],
    ["id"], true⟩

/-- The INSERT of `load_data_genre_film_work` (lines 368-374). -/
def genreFilmWorkInsertQuery : InsertQuery :=
  ⟨"genre_film_work",
    ["id", "genre_id", "film_work_id", "created"],
    [ValueExpr.param, ValueExpr.param, ValueExpr.param, ValueExpr.param],
    ["id"], true⟩

/-- The INSERT of `load_data_person` (lines 397-403). -/
def personInsertQuery : InsertQuery :=
  ⟨"person",
    ["id", "full_name", "created", "modified"],
    [ValueExpr.param, ValueExpr.param, ValueExpr.param, ValueExpr.param],
    ["id"], true⟩

/-- The INSERT of `load_data_person_film_work` (lines 425-432). -/
def personFilmWorkInsertQuery : InsertQuery :=
  ⟨"person_film_work",
    ["id", "film_work_id", "person_id", "role", "created"],
    [ValueExpr.param, ValueExpr.param, ValueExpr.param, ValueExpr.param,
      ValueExpr.param],
    ["id"], true⟩

/-- Observable effect of one `load_data_*` call, given the transformed record
batches: the (single, per-table) INSERT statement shape, the parameter tuples
passed to `executemany` per batch, the per-batch row counts logged, and the
Python return value (every load function is annotated and returns `None`). -/
structure LoadResult (π : Type) where
  query : InsertQuery
  batchesParams : List (List π)
  logs : List Nat
  ret : Option Nat
  deriving DecidableEq

/-- `load_data_film_work` (lines 294-323): per batch, `executemany` of the
film_work INSERT over `[astuple(r) for r in batch]`, one log per batch. -/
def load_data_film_work (batches : List (List FilmWork)) :
    LoadResult (List (Option Val)) :=
  ⟨filmWorkInsertQuery,
    batches.map (fun b => b.map FilmWork.astuple),
    batches.map (fun b => b.length),
    none⟩

/-- `load_data_genre` (lines 326-352). -/
def load_data_genre (batches : List (List Genre)) : LoadResult (List Val) :=
  ⟨genreInsertQuery,
    batches.map (fun b => b.map Genre.astuple),
    batches.map (fun b => b.length),
    none⟩

/-- `load_data_genre_film_work` (lines 355-381). -/
def load_data_genre_film_work (batches : List (List GenreFilmWork)) :
    LoadResult (List Val) :=
  ⟨genreFilmWorkInsertQuery,
    batches.map (fun b => b.map GenreFilmWork.astuple),
    batches.map (fun b => b.length),
    none⟩

/-- `load_data_person` (lines 384-409). -/
def load_data_person (batches : List (List Person)) : LoadResult (List Val) :=
  ⟨personInsertQuery,
    batches.map (fun b => b.map Person.astuple),
    batches.map (fun b => b.length),
    none⟩

/-- `load_data_person_film_work` (lines 412-439). -/
def load_data_person_film_work (batches : List (List PersonFilmWork)) :
    LoadResult (List Val) :=
  ⟨personFilmWorkInsertQuery,
    batches.map (fun b => b.map PersonFilmWork.astuple),
    batches.map (fun b => b.length),
    none⟩

/-- `BATCH_SIZE = 100` (line 31 of `load_data.py`). -/
def BATCH_SIZE : Nat := 100

/-- Fuel-indexed worker for `extract_data`; the fuel is at least the number of
rows, and each step consumes at least one row, so fuel never runs out. -/
def extract_dataAux {α : Type} : Nat → List α → List (List α)
  | 0, _ => []
  | _ + 1, [] => []
  | fuel + 1, r :: rs =>
    ((r :: rs).take BATCH_SIZE) :: extract_dataAux fuel (List.drop (BATCH_SIZE - 1) rs)

/-- `extract_data` (lines 48-71): `fetchmany(BATCH_SIZE)` in a loop, yielding
each non-empty batch and stopping at the first empty fetch. `rows` is the full
content of the table in cursor order. -/
def extract_data {α : Type} (rows : List α) : List (List α) :=
  extract_dataAux rows.length rows

/-- The list comprehension `[Cls(**dict(r)) for r in batch]`: rows are
converted left to right and the first construction error aborts the whole
batch (no partial batch is produced). -/
def transformBatch {ρ : Type} (init : Row → Except PyErr ρ) :
    List Row → Except PyErr (List ρ)
  | [] => Except.ok []
  | row :: rest =>
    match init row with
    | Except.error e => Except.error e
    | Except.ok r =>
      match transformBatch init rest with
      | Except.error e => Except.error e
      | Except.ok rs => Except.ok (r :: rs)

/-- `transform_data_genre` (lines 224-237): each extracted batch mapped
through `Genre` construction. -/
def transform_data_genre (src : List Row) : List (Except PyErr (List Genre)) :=
  (extract_data src).map (transformBatch genreInit)

/-- `transform_data_film_work` (lines 208-221). -/
def transform_data_film_work (src : List Row) :
    List (Except PyErr (List FilmWork)) :=
  (extract_data src).map (transformBatch filmWorkInit)

/-- Destination-table semantics of `ON CONFLICT (id) DO NOTHING`: a table is a
list of (primary key, row) pairs; this checks key presence. -/
def containsKey {π : Type} (t : List (Val × π)) (k : Val) : Bool :=
  t.any (fun kv => kv.fst == k)

/-- Insert one row with conflict-skip: if the key is already present the
statement does nothing, otherwise the row is appended. -/
def insertDoNothing {π : Type} (t : List (Val × π)) (k : Val) (r : π) :
    List (Val × π) :=
  if containsKey t k then t else t ++ [(k, r)]

/-- `executemany` of a conflict-skipping INSERT over one batch. -/
def applyBatch {π : Type} (t : List (Val × π)) (rows : List (Val × π)) :
    List (Val × π) :=
  rows.foldl (fun acc kr => insertDoNothing acc kr.fst kr.snd) t

/-- A whole load run for one table: all batches in order. -/
def runLoad {π : Type} (t : List (Val × π)) (batches : List (List (Val × π))) :
    List (Val × π) :=
  batches.foldl applyBatch t

/-- Shape of one SELECT issued by a verification function: table, selected
column expressions as written (with casts and aliases), optional ORDER BY key,
and whether the rows are restricted to a batch's id list (`WHERE id = ANY`). -/
structure SelectSpec where
  table : String
  columns : List String
  orderBy : Option String
  filterByIds : Bool
  deriving DecidableEq

/-- One verification routine: the source re-read (fetched in `batchSize`
pages) and the destination query issued per batch. -/
structure VerifySpec where
  batchSize : Nat
  sourceQuery : SelectSpec
  destQuery : SelectSpec
  deriving DecidableEq

/-- `test_transfer_film_work_table` (lines 442-484): source `ORDER BY id`,
destination selects the six record columns `ORDER BY id`. -/
def test_transfer_film_work_table : VerifySpec :=
  ⟨BATCH_SIZE,
    ⟨"film_work", ["*"], some "id", false⟩,
    ⟨"film_work",
      ["id", "title", "description", "creation_date", "rating", "type"],
      some "id", true⟩⟩

/-- `test_transfer_genre_table` (lines 487-522): no ORDER BY on either side. -/
def test_transfer_genre_table : VerifySpec :=
  ⟨BATCH_SIZE,
    ⟨"genre", ["*"], none, false⟩,
    ⟨"genre",
      ["id", "name", "description", "created::text as created_at",
        "modified::text as updated_at"],
      none, true⟩⟩

/-- `test_transfer_genre_film_work_table` (lines 525-571): no ORDER BY. -/
def test_transfer_genre_film_work_table : VerifySpec :=
  ⟨BATCH_SIZE,
    ⟨"genre_film_work", ["*"], none, false⟩,
    ⟨"genre_film_work",
      ["id", "genre_id::text", "film_work_id::text",
        "created::text as created_at"],
      none, true⟩⟩

/-- `test_transfer_person_table` (lines 574-621): source `ORDER BY
created_at`, destination `ORDER BY created`. -/
def test_transfer_person_table : VerifySpec :=
  ⟨BATCH_SIZE,
    ⟨"person", ["*"], some "created_at", false⟩,
    ⟨"person",
      ["id", "full_name", "created::text as created_at",
        "modified::text as updated_at"],
      some "created", true⟩⟩

/-- `test_transfer_person_film_work_table` (lines 624-671): no ORDER BY. -/
def test_transfer_person_film_work_table : VerifySpec :=
  ⟨BATCH_SIZE,
    ⟨"person_film_work", ["*"], none, false⟩,
    ⟨"person_film_work",
      ["id", "film_work_id::text", "person_id::text", "role",
        "created::text as created_at"],
      none, true⟩⟩

/-- One top-level operation of the `__main__` block. -/
inductive MainOp where
  | load : String → MainOp
  | commit : MainOp
  | verify : String → MainOp
  deriving DecidableEq

/-- The exact operation sequence of the `__main__` block (lines 692-703):
five loads, one commit, five verifications. Note the `person` load comes
after the `genre_film_work` load. -/
def mainOps : List MainOp :=
  [MainOp.load "film_work", MainOp.load "genre",
    MainOp.load "genre_film_work", MainOp.load "person",
    MainOp.load "person_film_work", MainOp.commit,
    MainOp.verify "film_work", MainOp.verify "genre",
    MainOp.verify "genre_film_work", MainOp.verify "person",
    MainOp.verify "person_film_work"]

/-- The three independent entity tables. -/
def entityTables : List String := ["film_work", "genre", "person"]

/-- The two junction tables. -/
def junctionTables : List String := ["genre_film_work", "person_film_work"]

end SqliteToPostgres

namespace SqliteToPostgres.Models

/-- Declared fields of the `FilmWork` dataclass in `models.py` (lines 42-49):
eight fields, including `created_at`/`updated_at`. -/
def filmWorkFields : List String :=
  ["id", "title", "description", "creation_date", "rating", "type",
    "created_at", "updated_at"]

/-- The eight-slot `FilmWork` of `models.py` (`@dataclass(init=False)` with
the same filtering `__init__` pattern as the one in `load_data.py`). -/
structure FilmWork where
  id : Option Val
  title : Option Val
  description : Option Val
  creation_date : Option Val
  rating : Option Val
  type : Option Val
  created_at : Option Val
  updated_at : Option Val
  deriving DecidableEq

/-- `models.FilmWork(**kwargs)` (lines 51-63): filter to the eight recognized
keys, set attributes, normalize a string `id`. -/
def filmWorkInit (kwargs : Row) : Except PyErr FilmWork :=
  match pyLookup (kwargs.filter (fun kv => filmWorkFields.contains kv.fst)) "id" with
  | none => Except.error PyErr.attributeError
  | some v =>
    (convertId v).map (fun i =>
      ⟨some i, pyLookup kwargs "title", pyLookup kwargs "description",
        pyLookup kwargs "creation_date", pyLookup kwargs "rating",
        pyLookup kwargs "type", pyLookup kwargs "created_at",
        pyLookup kwargs "updated_at"⟩)

end SqliteToPostgres.Models

namespace SqliteToPostgres

/-- A valid canonical UUID string used in concrete evaluations. -/
def uuidA : String := "3d8d9bf5-0d90-4353-88ba-4ccc5d2c07ff"

/-- `uuidA` with the hyphens removed, read as one hexadecimal number. -/
def uuidANat : Nat := 0x3d8d9bf50d90435388ba4ccc5d2c07ff

/-- A second valid canonical UUID string. -/
def uuidB : String := "120a21cf-9097-479e-904a-13dd7198c1dd"

/-- `uuidB` as a number. -/
def uuidBNat : Nat := 0x120a21cf9097479e904a13dd7198c1dd

/-- A third valid canonical UUID string. -/
def uuidC : String := "b92ef010-5e4c-4fd0-99d6-41b6456272cd"

/-- A timestamp string as stored in the SQLite source columns. -/
def tsA : String := "2021-06-16 20:14:09.221838"

/-- A well-formed source `genre` row. -/
def cexGenreRow : Row :=
  [("id", Val.vStr uuidA), ("name", Val.vStr "Action"),
    ("description", Val.vNone), ("created_at", Val.vStr tsA),
    ("updated_at", Val.vStr tsA)]

/-- The `Genre` record constructed from `cexGenreRow`. -/
def cexGenre : Genre :=
  ⟨Val.vUuid uuidANat, Val.vStr "Action", Val.vNone, Val.vStr tsA,
    Val.vStr tsA⟩

/-- A well-formed source `genre_film_work` row (all ids as text, as SQLite
stores them). -/
def cexGfwRow : Row :=
  [("id", Val.vStr uuidA), ("genre_id", Val.vStr uuidB),
    ("film_work_id", Val.vStr uuidC), ("created_at", Val.vStr tsA)]

/-- A well-formed source `person_film_work` row. -/
def cexPfwRow : Row :=
  [("id", Val.vStr uuidA), ("film_work_id", Val.vStr uuidC),
    ("person_id", Val.vStr uuidB), ("role", Val.vStr "actor"),
    ("created_at", Val.vStr tsA)]

/-- A well-formed source `person` row. -/
def cexPersonRow : Row :=
  [("id", Val.vStr uuidA), ("full_name", Val.vStr "George Lucas"),
    ("created_at", Val.vStr tsA), ("updated_at", Val.vStr tsA)]

/-- A well-formed source `film_work` row, with the source's own
`created_at`/`updated_at` columns present. -/
def cexFilmRow : Row :=
  [("id", Val.vStr uuidA), ("title", Val.vStr "Star Wars"),
    ("description", Val.vNone), ("creation_date", Val.vNone),
    ("rating", Val.vInt 8), ("type", Val.vStr "movie"),
    ("created_at", Val.vStr tsA), ("updated_at", Val.vStr tsA)]

end SqliteToPostgres



namespace SqliteToPostgres

/-- A source `genre` row whose required `name` field holds a value of the
wrong underlying type (an integer where text is expected). -/
def c5WrongTypeRow : Row :=
  [("id", Val.vStr uuidA), ("name", Val.vInt 5), ("description", Val.vNone),
    ("created_at", Val.vStr tsA), ("updated_at", Val.vStr tsA)]

/-- A source `genre` row whose `id` is not a convertible UUID string. -/
def c5BadIdRow : Row :=
  [("id", Val.vStr "not-a-uuid"), ("name", Val.vStr "Action"),
    ("description", Val.vNone), ("created_at", Val.vStr tsA),
    ("updated_at", Val.vStr tsA)]

/-- A source table of exactly `BATCH_SIZE` rows. -/
def rows100 : List Row :=
  (List.range 100).map (fun n => [("id", Val.vInt n)])

/-- A source table of `BATCH_SIZE + 1` rows. -/
def rows101 : List Row :=
  (List.range 101).map (fun n => [("id", Val.vInt n)])

end SqliteToPostgres

namespace SqliteToPostgres

theorem extract_dataAux_nil {α : Type} (fuel : Nat) :
    extract_dataAux fuel ([] : List α) = [] := by
  cases fuel <;> rfl

theorem extract_dataAux_batches {α : Type} :
    ∀ (fuel : Nat) (rows : List α) (b : List α),
      b ∈ extract_dataAux fuel rows → b ≠ [] ∧ b.length ≤ BATCH_SIZE := by
  intro fuel
  induction fuel with
  | zero =>
    intro rows b hb
    simp [extract_dataAux] at hb
  | succ n ih =>
    intro rows b hb
    cases rows with
    | nil => simp [extract_dataAux] at hb
    | cons r rs =>
      simp only [extract_dataAux, List.mem_cons] at hb
      rcases hb with hb | hb
      · subst hb
        refine ⟨?_, ?_⟩
        · simp [BATCH_SIZE, List.take_succ_cons]
        · exact List.length_take_le _ _
      · exact ih _ _ hb

theorem extract_dataAux_single {α : Type} (n : Nat) (rows : List α)
    (h1 : rows ≠ []) (h2 : rows.length ≤ BATCH_SIZE) :
    extract_dataAux (n + 1) rows = [rows] := by
  cases rows with
  | nil => exact absurd rfl h1
  | cons r rs =>
    have hrs : rs.length ≤ BATCH_SIZE - 1 := by
      simp only [List.length_cons] at h2
      omega
    simp only [extract_dataAux]
    rw [List.take_of_length_le h2, List.drop_eq_nil_of_le hrs,
      extract_dataAux_nil]

theorem containsKey_insertDoNothing {π : Type} (t : List (Val × π))
    (k k' : Val) (r : π) (h : containsKey t k' = true) :
    containsKey (insertDoNothing t k r) k' = true := by
  unfold insertDoNothing
  split
  · exact h
  · simp only [containsKey, List.any_append] at h ⊢
    simp [h]

theorem insertDoNothing_of_contains {π : Type} (t : List (Val × π))
    (k : Val) (r : π) (h : containsKey t k = true) :
    insertDoNothing t k r = t := by
  simp [insertDoNothing, h]

theorem containsKey_insert_self {π : Type} (t : List (Val × π))
    (k : Val) (r : π) : containsKey (insertDoNothing t k r) k = true := by
  unfold insertDoNothing
  split
  · assumption
  · simp [containsKey, List.any_append]

theorem containsKey_applyBatch_mono {π : Type} (rows : List (Val × π)) :
    ∀ (t : List (Val × π)) (k : Val), containsKey t k = true →
      containsKey (applyBatch t rows) k = true := by
  induction rows with
  | nil =>
    intro t k h
    simpa [applyBatch] using h
  | cons kr rest ih =>
    intro t k h
    simp only [applyBatch, List.foldl_cons] at ih ⊢
    exact ih _ _ (containsKey_insertDoNothing _ _ _ _ h)

theorem containsKey_applyBatch_mem {π : Type} (rows : List (Val × π)) :
    ∀ (t : List (Val × π)) (kr : Val × π), kr ∈ rows →
      containsKey (applyBatch t rows) kr.fst = true := by
  induction rows with
  | nil =>
    intro t kr h
    cases h
  | cons kr0 rest ih =>
    intro t kr h
    rcases List.mem_cons.mp h with h | h
    · subst h
      simp only [applyBatch, List.foldl_cons]
      have := containsKey_applyBatch_mono rest
        (insertDoNothing t kr.fst kr.snd) kr.fst
        (containsKey_insert_self t kr.fst kr.snd)
      simpa [applyBatch] using this
    · simp only [applyBatch, List.foldl_cons]
      have := ih (insertDoNothing t kr0.fst kr0.snd) kr h
      simpa [applyBatch] using this

theorem applyBatch_noop {π : Type} (rows : List (Val × π)) :
    ∀ (t : List (Val × π)), (∀ kr ∈ rows, containsKey t kr.fst = true) →
      applyBatch t rows = t := by
  induction rows with
  | nil =>
    intro t _
    rfl
  | cons kr0 rest ih =>
    intro t h
    have h0 := h kr0 (List.mem_cons_self _ _)
    simp only [applyBatch, List.foldl_cons]
    rw [insertDoNothing_of_contains _ _ _ h0]
    exact ih t (fun kr hm => h kr (List.mem_cons_of_mem _ hm))

theorem containsKey_runLoad_mono {π : Type} (batches : List (List (Val × π))) :
    ∀ (t : List (Val × π)) (k : Val), containsKey t k = true →
      containsKey (runLoad t batches) k = true := by
  induction batches with
  | nil =>
    intro t k h
    simpa [runLoad] using h
  | cons b rest ih =>
    intro t k h
    simp only [runLoad, List.foldl_cons] at ih ⊢
    exact ih _ _ (containsKey_applyBatch_mono _ _ _ h)

theorem containsKey_runLoad_mem {π : Type} (batches : List (List (Val × π))) :
    ∀ (t : List (Val × π)) (b : List (Val × π)) (kr : Val × π),
      b ∈ batches → kr ∈ b → containsKey (runLoad t batches) kr.fst = true := by
  induction batches with
  | nil =>
    intro t b kr h _
    cases h
  | cons b0 rest ih =>
    intro t b kr hb hkr
    rcases List.mem_cons.mp hb with hb | hb
    · subst hb
      simp only [runLoad, List.foldl_cons]
      have := containsKey_runLoad_mono rest (applyBatch t b) kr.fst
        (containsKey_applyBatch_mem b t kr hkr)
      simpa [runLoad] using this
    · simp only [runLoad, List.foldl_cons]
      have := ih (applyBatch t b0) b kr hb hkr
      simpa [runLoad] using this

theorem runLoad_noop {π : Type} (batches : List (List (Val × π))) :
    ∀ (t : List (Val × π)),
      (∀ b ∈ batches, ∀ kr ∈ b, containsKey t kr.fst = true) →
      runLoad t batches = t := by
  induction batches with
  | nil =>
    intro t _
    rfl
  | cons b0 rest ih =>
    intro t h
    simp only [runLoad, List.foldl_cons]
    rw [applyBatch_noop b0 t (h b0 (List.mem_cons_self _ _))]
    exact ih t (fun b hb kr hkr => h b (List.mem_cons_of_mem _ hb) kr hkr)

theorem runLoad_idem {π : Type} (t : List (Val × π))
    (batches : List (List (Val × π))) :
    runLoad (runLoad t batches) batches = runLoad t batches :=
  runLoad_noop batches (runLoad t batches)
    (fun b hb kr hkr => containsKey_runLoad_mem batches t b kr hb hkr)

end SqliteToPostgres

namespace SqliteToPostgres

theorem pyLookup_cons (kv : String × Val) (rest : Row) (k : String) :
    pyLookup (kv :: rest) k =
      if kv.fst == k then some kv.snd else pyLookup rest k := by
  unfold pyLookup
  rw [List.find?_cons]
  cases h : kv.fst == k <;> simp [h]

theorem pyLookup_filter (p : String × Val → Bool) (kwargs : Row) (k : String)
    (hp : ∀ v, p (k, v) = true) :
    pyLookup (kwargs.filter p) k = pyLookup kwargs k := by
  induction kwargs with
  | nil => rfl
  | cons kv rest ih =>
    by_cases hk : kv.fst = k
    · have hpk : p kv = true := by
        cases kv with
        | mk a b =>
          simp only at hk
          subst hk
          exact hp b
      rw [List.filter_cons_of_pos hpk, pyLookup_cons, pyLookup_cons]
      simp [hk]
    · cases hpk : p kv
      · rw [List.filter_cons_of_neg (by simp [hpk]), pyLookup_cons]
        have : (kv.fst == k) = false := by
          simp [hk]
        rw [this]
        simp only [Bool.false_eq_true, if_false]
        exact ih
      · rw [List.filter_cons_of_pos hpk, pyLookup_cons, pyLookup_cons]
        have : (kv.fst == k) = false := by
          simp [hk]
        rw [this]
        simp only [Bool.false_eq_true, if_false]
        exact ih

theorem dataclassCheck_extra_key (fields : List String) (kwargs : Row)
    (k : String) (v : Val) (hm : (k, v) ∈ kwargs)
    (h : fields.contains k = false) : dataclassCheck fields kwargs = false := by
  have hall : kwargs.all (fun kv => fields.contains kv.fst) = false := by
    cases hall : kwargs.all (fun kv => fields.contains kv.fst)
    · rfl
    · have := List.all_eq_true.mp hall (k, v) hm
      simp only at this
      rw [h] at this
      cases this
  unfold dataclassCheck
  rw [hall, Bool.false_and]

theorem dataclassCheck_missing (fields : List String) (kwargs : Row)
    (f : String) (hf : f ∈ fields) (h : pyLookup kwargs f = none) :
    dataclassCheck fields kwargs = false := by
  have hall : fields.all (fun g => (pyLookup kwargs g).isSome) = false := by
    cases hall : fields.all (fun g => (pyLookup kwargs g).isSome)
    · rfl
    · have := List.all_eq_true.mp hall f hf
      simp only at this
      rw [h] at this
      cases this
  unfold dataclassCheck
  rw [hall, Bool.and_false]

theorem convertId_ok_of_str (s : String) (i : Val)
    (h : convertId (Val.vStr s) = Except.ok i) :
    ∃ n, parseUUID s = some n ∧ i = Val.vUuid n := by
  have h2 : (match parseUUID s with
      | some n => Except.ok (Val.vUuid n)
      | none => (Except.error PyErr.valueError : Except PyErr Val)) =
        Except.ok i := h
  cases hp : parseUUID s with
  | none =>
    rw [hp] at h2
    cases h2
  | some n =>
    rw [hp] at h2
    injection h2 with h2
    exact ⟨n, rfl, h2.symm⟩

theorem genreInit_ok (kwargs : Row) (g : Genre)
    (h : genreInit kwargs = Except.ok g) :
    ∃ i, convertId (pyGet kwargs "id") = Except.ok i ∧
      g = ⟨i, pyGet kwargs "name", pyGet kwargs "description",
        pyGet kwargs "created_at", pyGet kwargs "updated_at"⟩ := by
  unfold genreInit at h
  split at h
  · cases hc : convertId (pyGet kwargs "id") with
    | error e =>
      rw [hc] at h
      cases h
    | ok i =>
      rw [hc] at h
      injection h with h
      exact ⟨i, rfl, h.symm⟩
  · cases h

theorem genreFilmWorkInit_ok (kwargs : Row) (g : GenreFilmWork)
    (h : genreFilmWorkInit kwargs = Except.ok g) :
    ∃ i, convertId (pyGet kwargs "id") = Except.ok i ∧
      g = ⟨i, pyGet kwargs "genre_id", pyGet kwargs "film_work_id",
        pyGet kwargs "created_at"⟩ := by
  unfold genreFilmWorkInit at h
  split at h
  · cases hc : convertId (pyGet kwargs "id") with
    | error e =>
      rw [hc] at h
      cases h
    | ok i =>
      rw [hc] at h
      injection h with h
      exact ⟨i, rfl, h.symm⟩
  · cases h

theorem personInit_ok (kwargs : Row) (p : Person)
    (h : personInit kwargs = Except.ok p) :
    ∃ i, convertId (pyGet kwargs "id") = Except.ok i ∧
      p = ⟨i, pyGet kwargs "full_name", pyGet kwargs "created_at",
        pyGet kwargs "updated_at"⟩ := by
  unfold personInit at h
  split at h
  · cases hc : convertId (pyGet kwargs "id") with
    | error e =>
      rw [hc] at h
      cases h
    | ok i =>
      rw [hc] at h
      injection h with h
      exact ⟨i, rfl, h.symm⟩
  · cases h

theorem personFilmWorkInit_ok (kwargs : Row) (p : PersonFilmWork)
    (h : personFilmWorkInit kwargs = Except.ok p) :
    ∃ i, convertId (pyGet kwargs "id") = Except.ok i ∧
      p = ⟨i, pyGet kwargs "film_work_id", pyGet kwargs "person_id",
        pyGet kwargs "role", pyGet kwargs "created_at"⟩ := by
  unfold personFilmWorkInit at h
  split at h
  · cases hc : convertId (pyGet kwargs "id") with
    | error e =>
      rw [hc] at h
      cases h
    | ok i =>
      rw [hc] at h
      injection h with h
      exact ⟨i, rfl, h.symm⟩
  · cases h

theorem filmWorkInit_ok (kwargs : Row) (f : FilmWork)
    (h : filmWorkInit kwargs = Except.ok f) :
    ∃ v i, pyLookup kwargs "id" = some v ∧ convertId v = Except.ok i ∧
      f.id = some i := by
  unfold filmWorkInit filmWorkMake at h
  split at h
  · cases h
  · rename_i v hl
    cases hc : convertId v with
    | error e =>
      rw [hc] at h
      cases h
    | ok i =>
      rw [hc] at h
      injection h with h
      refine ⟨v, i, ?_, hc, ?_⟩
      · rw [← hl]
        unfold filmWorkAttrs
        exact (pyLookup_filter (fun kv => filmWorkFields.contains kv.fst)
          kwargs "id"
          (fun w => (by decide : filmWorkFields.contains "id" = true))).symm
      · rw [← h]

theorem transformBatch_abort {ρ : Type} (init : Row → Except PyErr ρ)
    (pre post : List Row) (row : Row) (e : PyErr)
    (hrow : init row = Except.error e)
    (hpre : ∀ r ∈ pre, ∃ v, init r = Except.ok v) :
    transformBatch init (pre ++ row :: post) = Except.error e := by
  induction pre with
  | nil =>
    simp [transformBatch, hrow]
  | cons r rest ih =>
    obtain ⟨v, hv⟩ := hpre r (List.mem_cons_self _ _)
    have hrest := ih (fun r hr => hpre r (List.mem_cons_of_mem _ hr))
    simp only [List.cons_append, transformBatch, hv]
    have hrest2 : transformBatch init (List.append rest (row :: post)) =
        Except.error e := hrest
    rw [hrest2]

end SqliteToPostgres

namespace SqliteToPostgres

/-- Claim C7 (confirmed): every INSERT the loader emits carries an
`ON CONFLICT (id) DO NOTHING` clause (with `id`, the primary key, as the
first bound column), and under that conflict-skip semantics re-running the
whole load over the same batches leaves the destination table exactly as
after one run. -/
theorem c7_conflict_skip_idempotent :
    ([filmWorkInsertQuery, genreInsertQuery, genreFilmWorkInsertQuery,
        personInsertQuery, personFilmWorkInsertQuery].all
      (fun q => q.conflictDoNothing && (q.conflictTarget == ["id"]) &&
        (q.columns.head? == some "id"))) = true ∧
    (∀ (π : Type) (t : List (Val × π)) (batches : List (List (Val × π))),
      runLoad (runLoad t batches) batches = runLoad t batches) ∧
    (∀ bs, (load_data_film_work bs).query = filmWorkInsertQuery) ∧
    (∀ bs, (load_data_genre bs).query = genreInsertQuery) ∧
    (∀ bs, (load_data_genre_film_work bs).query = genreFilmWorkInsertQuery) ∧
    (∀ bs, (load_data_person bs).query = personInsertQuery) ∧
    (∀ bs, (load_data_person_film_work bs).query = personFilmWorkInsertQuery) := by
  refine ⟨by decide, fun π t batches => runLoad_idem t batches,
    fun bs => rfl, fun bs => rfl, fun bs => rfl, fun bs => rfl, fun bs => rfl⟩

/-- Claim C8 (confirmed): `BATCH_SIZE` is 100; extraction yields only
non-empty batches of at most `BATCH_SIZE` rows; a table of exactly
`BATCH_SIZE` rows yields one full batch and terminates; a table of
`BATCH_SIZE + 1` rows yields one full batch and one single-row batch; and
an empty table yields nothing (the first empty fetch terminates the
sequence). -/
theorem c8_extraction_batches :
    BATCH_SIZE = 100 ∧
    (∀ (rows : List Row) (b : List Row), b ∈ extract_data rows →
      b ≠ [] ∧ b.length ≤ BATCH_SIZE) ∧
    (∀ rows : List Row, rows.length = BATCH_SIZE → extract_data rows = [rows]) ∧
    (∀ rows : List Row, rows.length = BATCH_SIZE + 1 →
      extract_data rows = [rows.take BATCH_SIZE, rows.drop BATCH_SIZE] ∧
        (rows.drop BATCH_SIZE).length = 1) ∧
    extract_data ([] : List Row) = [] := by
  refine ⟨rfl, ?_, ?_, ?_, rfl⟩
  · intro rows b hb
    exact extract_dataAux_batches rows.length rows b hb
  · intro rows h
    unfold extract_data
    rw [h]
    refine extract_dataAux_single 99 rows ?_ (le_of_eq h)
    intro hn
    rw [hn] at h
    simp [BATCH_SIZE] at h
  · intro rows h
    cases rows with
    | nil => simp [BATCH_SIZE] at h
    | cons r rs =>
      have hrs : rs.length = BATCH_SIZE := by
        simp only [List.length_cons] at h
        omega
      have hdl : (List.drop (BATCH_SIZE - 1) rs).length = 1 := by
        rw [List.length_drop, hrs]
        decide
      have hdrop : List.drop (BATCH_SIZE - 1) rs = (r :: rs).drop BATCH_SIZE :=
        rfl
      refine ⟨?_, ?_⟩
      · unfold extract_data
        rw [h]
        simp only [extract_dataAux]
        rw [extract_dataAux_single 99 (List.drop (BATCH_SIZE - 1) rs)
          (by intro hn; rw [hn] at hdl; cases hdl)
          (by rw [hdl]; decide), hdrop]
      · rw [← hdrop, hdl]

/-- Witness for claim C8: the theorem applied to concrete source tables of
100 and 101 one-column rows. -/
theorem c8_extraction_batches_witness :
    extract_data rows100 = [rows100] ∧
    (extract_data rows101 = [rows101.take BATCH_SIZE, rows101.drop BATCH_SIZE] ∧
      (rows101.drop BATCH_SIZE).length = 1) ∧
    (rows100 ≠ [] ∧ rows100.length ≤ BATCH_SIZE) :=
  ⟨c8_extraction_batches.2.2.1 rows100 (by decide),
    c8_extraction_batches.2.2.2.1 rows101 (by decide),
    c8_extraction_batches.2.1 rows100 rows100 (by decide)⟩

/-- Claim C9: counterexample. The load functions do not return the count of
batches committed: on a one-batch input, `load_data_genre` commits one batch
but its Python return value is `None`, not `1`. -/
theorem c9_counterexample :
    (load_data_genre [[cexGenre]]).batchesParams.length = 1 ∧
    (load_data_genre [[cexGenre]]).logs = [1] ∧
    (load_data_genre [[cexGenre]]).ret = none ∧
    (load_data_genre [[cexGenre]]).ret ≠ some 1 :=
  ⟨rfl, rfl, rfl, by decide⟩

/-- Claim C9 (amended): every load function returns `None`; for each input
batch it issues exactly one bulk INSERT and logs that batch's row count, so
the batch count is observable only through the statements and log events,
not through the return value. -/
theorem c9_amended_load_returns_none :
    (∀ batches, (load_data_film_work batches).ret = none ∧
      (load_data_film_work batches).logs = batches.map (fun b => b.length) ∧
      (load_data_film_work batches).batchesParams.length = batches.length) ∧
    (∀ batches, (load_data_genre batches).ret = none ∧
      (load_data_genre batches).logs = batches.map (fun b => b.length) ∧
      (load_data_genre batches).batchesParams.length = batches.length) ∧
    (∀ batches, (load_data_genre_film_work batches).ret = none ∧
      (load_data_genre_film_work batches).logs = batches.map (fun b => b.length) ∧
      (load_data_genre_film_work batches).batchesParams.length = batches.length) ∧
    (∀ batches, (load_data_person batches).ret = none ∧
      (load_data_person batches).logs = batches.map (fun b => b.length) ∧
      (load_data_person batches).batchesParams.length = batches.length) ∧
    (∀ batches, (load_data_person_film_work batches).ret = none ∧
      (load_data_person_film_work batches).logs = batches.map (fun b => b.length) ∧
      (load_data_person_film_work batches).batchesParams.length = batches.length) := by
  refine ⟨fun batches => ⟨rfl, rfl, ?_⟩, fun batches => ⟨rfl, rfl, ?_⟩,
    fun batches => ⟨rfl, rfl, ?_⟩, fun batches => ⟨rfl, rfl, ?_⟩,
    fun batches => ⟨rfl, rfl, ?_⟩⟩ <;>
  simp [load_data_film_work, load_data_genre, load_data_genre_film_work,
    load_data_person, load_data_person_film_work]

end SqliteToPostgres

namespace SqliteToPostgres

/-- Claim C1: counterexample. For the `genre` table the claim fails: the
INSERT emitted by `load_data_genre` has no `NOW()` expression at all, its
`created`/`modified` columns (positions 3 and 4) are bound from `%s`
placeholders, and the bound parameter tuple of a concrete record contains
the source row's `created_at`/`updated_at` value `tsA`. -/
theorem c1_counterexample :
    genreInit cexGenreRow = Except.ok cexGenre ∧
    genreInsertQuery.values.contains ValueExpr.nowCall = false ∧
    genreInsertQuery.columns[3]? = some "created" ∧
    genreInsertQuery.values[3]? = some ValueExpr.param ∧
    genreInsertQuery.columns[4]? = some "modified" ∧
    genreInsertQuery.values[4]? = some ValueExpr.param ∧
    (load_data_genre [[cexGenre]]).batchesParams = [[Genre.astuple cexGenre]] ∧
    (Genre.astuple cexGenre)[3]? = some (Val.vStr tsA) ∧
    (Genre.astuple cexGenre)[4]? = some (Val.vStr tsA) :=
  ⟨by decide, by decide, rfl, rfl, rfl, rfl, rfl, rfl, rfl⟩

/-- Claim C1 (amended): only the `film_work` INSERT stamps the destination's
`created`/`modified` columns with `NOW()` (and its record carries no
timestamp fields at all); the `genre`, `person`, `genre_film_work` and
`person_film_work` INSERTs contain no `NOW()` and bind the source record's
`created_at` (and `updated_at`) values positionally to the `created` (and
`modified`) columns. -/
theorem c1_amended_timestamp_columns :
    (filmWorkInsertQuery.columns[6]? = some "created" ∧
      filmWorkInsertQuery.columns[7]? = some "modified" ∧
      filmWorkInsertQuery.values[6]? = some ValueExpr.nowCall ∧
      filmWorkInsertQuery.values[7]? = some ValueExpr.nowCall ∧
      filmWorkFields.contains "created_at" = false ∧
      filmWorkFields.contains "updated_at" = false ∧
      (∀ f : FilmWork, (FilmWork.astuple f).length = 6)) ∧
    (genreInsertQuery.values.contains ValueExpr.nowCall = false ∧
      genreInsertQuery.columns[3]? = some "created" ∧
      genreInsertQuery.columns[4]? = some "modified" ∧
      (∀ g : Genre, (Genre.astuple g)[3]? = some g.created_at ∧
        (Genre.astuple g)[4]? = some g.updated_at)) ∧
    (personInsertQuery.values.contains ValueExpr.nowCall = false ∧
      personInsertQuery.columns[2]? = some "created" ∧
      personInsertQuery.columns[3]? = some "modified" ∧
      (∀ p : Person, (Person.astuple p)[2]? = some p.created_at ∧
        (Person.astuple p)[3]? = some p.updated_at)) ∧
    (genreFilmWorkInsertQuery.values.contains ValueExpr.nowCall = false ∧
      genreFilmWorkInsertQuery.columns[3]? = some "created" ∧
      (∀ g : GenreFilmWork, (GenreFilmWork.astuple g)[3]? = some g.created_at)) ∧
    (personFilmWorkInsertQuery.values.contains ValueExpr.nowCall = false ∧
      personFilmWorkInsertQuery.columns[4]? = some "created" ∧
      (∀ p : PersonFilmWork, (PersonFilmWork.astuple p)[4]? = some p.created_at)) :=
  ⟨⟨rfl, rfl, rfl, rfl, by decide, by decide, fun f => rfl⟩,
    ⟨by decide, rfl, rfl, fun g => ⟨rfl, rfl⟩⟩,
    ⟨by decide, rfl, rfl, fun p => ⟨rfl, rfl⟩⟩,
    ⟨by decide, rfl, fun g => rfl⟩,
    ⟨by decide, rfl, fun p => rfl⟩⟩

/-- Claim C2: counterexample. The `person` entity load (position 3 in the
main operation sequence) does not precede the `genre_film_work` junction
load (position 2), so not every entity-table load precedes every
junction-table load. -/
theorem c2_counterexample :
    "person" ∈ entityTables ∧
    "genre_film_work" ∈ junctionTables ∧
    mainOps.indexOf (MainOp.load "person") = 3 ∧
    mainOps.indexOf (MainOp.load "genre_film_work") = 2 ∧
    ¬ mainOps.indexOf (MainOp.load "person") <
        mainOps.indexOf (MainOp.load "genre_film_work") := by
  refine ⟨by decide, by decide, by decide, by decide, by decide⟩

/-- Claim C2 (amended): the main block loads the tables in the order
film_work, genre, genre_film_work, person, person_film_work, then commits,
then verifies; each junction load follows the loads of the entity tables it
references, but the `person` load follows the `genre_film_work` load. -/
theorem c2_amended_load_order :
    mainOps =
      [MainOp.load "film_work", MainOp.load "genre",
        MainOp.load "genre_film_work", MainOp.load "person",
        MainOp.load "person_film_work", MainOp.commit,
        MainOp.verify "film_work", MainOp.verify "genre",
        MainOp.verify "genre_film_work", MainOp.verify "person",
        MainOp.verify "person_film_work"] ∧
    mainOps.indexOf (MainOp.load "film_work") <
      mainOps.indexOf (MainOp.load "genre_film_work") ∧
    mainOps.indexOf (MainOp.load "genre") <
      mainOps.indexOf (MainOp.load "genre_film_work") ∧
    mainOps.indexOf (MainOp.load "film_work") <
      mainOps.indexOf (MainOp.load "person_film_work") ∧
    mainOps.indexOf (MainOp.load "person") <
      mainOps.indexOf (MainOp.load "person_film_work") ∧
    mainOps.indexOf (MainOp.load "genre_film_work") <
      mainOps.indexOf (MainOp.load "person") ∧
    mainOps.indexOf (MainOp.load "person_film_work") <
      mainOps.indexOf MainOp.commit ∧
    mainOps.indexOf MainOp.commit <
      mainOps.indexOf (MainOp.verify "film_work") := by
  refine ⟨rfl, by decide, by decide, by decide, by decide, by decide,
    by decide, by decide⟩

/-- Claim C6: counterexample. The verifier reads the `genre`,
`genre_film_work` and `person_film_work` source tables with no ORDER BY at
all (and queries the destination for them with no ORDER BY), so there is no
canonical primary-key ordering for those tables. -/
theorem c6_counterexample :
    test_transfer_genre_table.sourceQuery.orderBy = none ∧
    test_transfer_genre_table.destQuery.orderBy = none ∧
    test_transfer_genre_film_work_table.sourceQuery.orderBy = none ∧
    test_transfer_genre_film_work_table.destQuery.orderBy = none ∧
    test_transfer_person_film_work_table.sourceQuery.orderBy = none ∧
    test_transfer_person_film_work_table.destQuery.orderBy = none ∧
    (none : Option String) ≠ some "id" :=
  ⟨rfl, rfl, rfl, rfl, rfl, rfl, by decide⟩

/-- Claim C6 (amended): every verification routine re-reads the source in
`BATCH_SIZE` pages and queries the destination restricted to the batch's
identifiers, but only `film_work` (by `id`, on both sides) and `person`
(by `created_at` in the source, `created` in the destination) impose an
ordering; `genre`, `genre_film_work` and `person_film_work` are read with
no ORDER BY on either side, so their row alignment relies on incidental
row order. -/
theorem c6_amended_verify_ordering :
    ([test_transfer_film_work_table, test_transfer_genre_table,
        test_transfer_genre_film_work_table, test_transfer_person_table,
        test_transfer_person_film_work_table].all
      (fun v => (v.batchSize == BATCH_SIZE) && v.destQuery.filterByIds &&
        !v.sourceQuery.filterByIds)) = true ∧
    test_transfer_film_work_table.sourceQuery.orderBy = some "id" ∧
    test_transfer_film_work_table.destQuery.orderBy = some "id" ∧
    test_transfer_person_table.sourceQuery.orderBy = some "created_at" ∧
    test_transfer_person_table.destQuery.orderBy = some "created" ∧
    test_transfer_genre_table.sourceQuery.orderBy = none ∧
    test_transfer_genre_table.destQuery.orderBy = none ∧
    test_transfer_genre_film_work_table.sourceQuery.orderBy = none ∧
    test_transfer_genre_film_work_table.destQuery.orderBy = none ∧
    test_transfer_person_film_work_table.sourceQuery.orderBy = none ∧
    test_transfer_person_film_work_table.destQuery.orderBy = none :=
  ⟨by decide, rfl, rfl, rfl, rfl, rfl, rfl, rfl, rfl, rfl, rfl⟩

end SqliteToPostgres

namespace SqliteToPostgres

theorem convertId_str_none (s : String) (h : parseUUID s = none) :
    convertId (Val.vStr s) = Except.error PyErr.valueError := by
  have h2 : convertId (Val.vStr s) = (match parseUUID s with
      | some n => Except.ok (Val.vUuid n)
      | none => (Except.error PyErr.valueError : Except PyErr Val)) := rfl
  rw [h2, h]

theorem filmWorkMake_id_some (attrs : Row) (v : Val)
    (h : pyLookup attrs "id" = some v) :
    filmWorkMake attrs = (convertId v).map (fun i =>
      ⟨some i, pyLookup attrs "title", pyLookup attrs "description",
        pyLookup attrs "creation_date", pyLookup attrs "rating",
        pyLookup attrs "type"⟩) := by
  unfold filmWorkMake
  rw [h]

theorem pyLookup_filmWorkAttrs_id (kwargs : Row) :
    pyLookup (filmWorkAttrs kwargs) "id" = pyLookup kwargs "id" := by
  unfold filmWorkAttrs
  exact pyLookup_filter (fun kv => filmWorkFields.contains kv.fst) kwargs "id"
    (fun w => (by decide : filmWorkFields.contains "id" = true))

/-- Claim C3: counterexample. A `genre` mapping that contains all recognized
keys plus one extra key does not construct with the extra key ignored: the
generated dataclass `__init__` rejects the unexpected keyword with
`TypeError`, while the same mapping without the extra key constructs fine. -/
theorem c3_counterexample :
    genreInit cexGenreRow = Except.ok cexGenre ∧
    genreInit (cexGenreRow ++ [("extra_col", Val.vInt 1)]) =
      Except.error PyErr.typeError :=
  ⟨by decide, by decide⟩

/-- Claim C3 (amended): only `FilmWork` construction silently ignores
unrecognized keys (adding one changes nothing); for `Genre`, `Person`,
`GenreFilmWork` and `PersonFilmWork` any mapping containing an unrecognized
key makes construction fail with `TypeError`. -/
theorem c3_amended_extra_keys :
    (∀ (kwargs : Row) (k : String) (v : Val),
      filmWorkFields.contains k = false →
      filmWorkInit (kwargs ++ [(k, v)]) = filmWorkInit kwargs) ∧
    (∀ (kwargs : Row) (k : String) (v : Val), (k, v) ∈ kwargs →
      genreFields.contains k = false →
      genreInit kwargs = Except.error PyErr.typeError) ∧
    (∀ (kwargs : Row) (k : String) (v : Val), (k, v) ∈ kwargs →
      personFields.contains k = false →
      personInit kwargs = Except.error PyErr.typeError) ∧
    (∀ (kwargs : Row) (k : String) (v : Val), (k, v) ∈ kwargs →
      genreFilmWorkFields.contains k = false →
      genreFilmWorkInit kwargs = Except.error PyErr.typeError) ∧
    (∀ (kwargs : Row) (k : String) (v : Val), (k, v) ∈ kwargs →
      personFilmWorkFields.contains k = false →
      personFilmWorkInit kwargs = Except.error PyErr.typeError) := by
  refine ⟨?_, ?_, ?_, ?_, ?_⟩
  · intro kwargs k v h
    unfold filmWorkInit
    congr 1
    unfold filmWorkAttrs
    rw [List.filter_append]
    have hk : k ∉ filmWorkFields := by
      simpa using h
    have hnil : List.filter (fun kv => filmWorkFields.contains kv.fst)
        [(k, v)] = [] := by
      simp [List.filter_cons, hk]
    rw [hnil, List.append_nil]
  · intro kwargs k v hm h
    unfold genreInit
    rw [dataclassCheck_extra_key genreFields kwargs k v hm h]
    simp
  · intro kwargs k v hm h
    unfold personInit
    rw [dataclassCheck_extra_key personFields kwargs k v hm h]
    simp
  · intro kwargs k v hm h
    unfold genreFilmWorkInit
    rw [dataclassCheck_extra_key genreFilmWorkFields kwargs k v hm h]
    simp
  · intro kwargs k v hm h
    unfold personFilmWorkInit
    rw [dataclassCheck_extra_key personFilmWorkFields kwargs k v hm h]
    simp

/-- Witness for claim C3's amended theorem, applied at concrete rows with an
unrecognized extra key. -/
theorem c3_amended_extra_keys_witness :
    filmWorkInit (cexFilmRow ++ [("extra_col2", Val.vInt 1)]) =
      filmWorkInit cexFilmRow ∧
    genreInit (("extra_col2", Val.vInt 1) :: cexGenreRow) =
      Except.error PyErr.typeError ∧
    personInit (("extra_col2", Val.vInt 1) :: cexPersonRow) =
      Except.error PyErr.typeError ∧
    genreFilmWorkInit (("extra_col2", Val.vInt 1) :: cexGfwRow) =
      Except.error PyErr.typeError ∧
    personFilmWorkInit (("extra_col2", Val.vInt 1) :: cexPfwRow) =
      Except.error PyErr.typeError :=
  ⟨c3_amended_extra_keys.1 cexFilmRow "extra_col2" (Val.vInt 1) (by decide),
    c3_amended_extra_keys.2.1 (("extra_col2", Val.vInt 1) :: cexGenreRow)
      "extra_col2" (Val.vInt 1) (by decide) (by decide),
    c3_amended_extra_keys.2.2.1 (("extra_col2", Val.vInt 1) :: cexPersonRow)
      "extra_col2" (Val.vInt 1) (by decide) (by decide),
    c3_amended_extra_keys.2.2.2.1 (("extra_col2", Val.vInt 1) :: cexGfwRow)
      "extra_col2" (Val.vInt 1) (by decide) (by decide),
    c3_amended_extra_keys.2.2.2.2 (("extra_col2", Val.vInt 1) :: cexPfwRow)
      "extra_col2" (Val.vInt 1) (by decide) (by decide)⟩

/-- Claim C4: counterexample. In a `GenreFilmWork` constructed from a row
whose `genre_id` is a perfectly parseable UUID string, the `genre_id` field
still holds the original string, not the parsed UUID value. -/
theorem c4_counterexample :
    genreFilmWorkInit cexGfwRow =
      Except.ok ⟨Val.vUuid uuidANat, Val.vStr uuidB, Val.vStr uuidC,
        Val.vStr tsA⟩ ∧
    parseUUID uuidB = some uuidBNat ∧
    Val.vStr uuidB ≠ Val.vUuid uuidBNat :=
  ⟨by decide, by decide, by decide⟩

/-- Claim C4 (amended): construction normalizes only the `id` field from
text to parsed UUID form; the other identifier fields (`genre_id`,
`film_work_id`, `person_id`) are stored exactly as supplied, textual form
included. -/
theorem c4_amended_only_id_normalized :
    (∀ (kwargs : Row) (g : GenreFilmWork),
      genreFilmWorkInit kwargs = Except.ok g →
      g.genre_id = pyGet kwargs "genre_id" ∧
      g.film_work_id = pyGet kwargs "film_work_id" ∧
      (∀ s, pyLookup kwargs "id" = some (Val.vStr s) →
        ∃ n, parseUUID s = some n ∧ g.id = Val.vUuid n)) ∧
    (∀ (kwargs : Row) (p : PersonFilmWork),
      personFilmWorkInit kwargs = Except.ok p →
      p.film_work_id = pyGet kwargs "film_work_id" ∧
      p.person_id = pyGet kwargs "person_id" ∧
      (∀ s, pyLookup kwargs "id" = some (Val.vStr s) →
        ∃ n, parseUUID s = some n ∧ p.id = Val.vUuid n)) ∧
    (∀ (kwargs : Row) (g : Genre), genreInit kwargs = Except.ok g →
      ∀ s, pyLookup kwargs "id" = some (Val.vStr s) →
        ∃ n, parseUUID s = some n ∧ g.id = Val.vUuid n) ∧
    (∀ (kwargs : Row) (p : Person), personInit kwargs = Except.ok p →
      ∀ s, pyLookup kwargs "id" = some (Val.vStr s) →
        ∃ n, parseUUID s = some n ∧ p.id = Val.vUuid n) ∧
    (∀ (kwargs : Row) (f : FilmWork), filmWorkInit kwargs = Except.ok f →
      ∀ s, pyLookup kwargs "id" = some (Val.vStr s) →
        ∃ n, parseUUID s = some n ∧ f.id = some (Val.vUuid n)) := by
  refine ⟨?_, ?_, ?_, ?_, ?_⟩
  · intro kwargs g h
    obtain ⟨i, hc, hg⟩ := genreFilmWorkInit_ok kwargs g h
    subst hg
    refine ⟨rfl, rfl, ?_⟩
    intro s hs
    have hget : pyGet kwargs "id" = Val.vStr s := by
      unfold pyGet
      rw [hs]
      rfl
    rw [hget] at hc
    obtain ⟨n, hn, hi⟩ := convertId_ok_of_str s i hc
    exact ⟨n, hn, hi⟩
  · intro kwargs p h
    obtain ⟨i, hc, hp⟩ := personFilmWorkInit_ok kwargs p h
    subst hp
    refine ⟨rfl, rfl, ?_⟩
    intro s hs
    have hget : pyGet kwargs "id" = Val.vStr s := by
      unfold pyGet
      rw [hs]
      rfl
    rw [hget] at hc
    obtain ⟨n, hn, hi⟩ := convertId_ok_of_str s i hc
    exact ⟨n, hn, hi⟩
  · intro kwargs g h s hs
    obtain ⟨i, hc, hg⟩ := genreInit_ok kwargs g h
    subst hg
    have hget : pyGet kwargs "id" = Val.vStr s := by
      unfold pyGet
      rw [hs]
      rfl
    rw [hget] at hc
    obtain ⟨n, hn, hi⟩ := convertId_ok_of_str s i hc
    exact ⟨n, hn, hi⟩
  · intro kwargs p h s hs
    obtain ⟨i, hc, hp⟩ := personInit_ok kwargs p h
    subst hp
    have hget : pyGet kwargs "id" = Val.vStr s := by
      unfold pyGet
      rw [hs]
      rfl
    rw [hget] at hc
    obtain ⟨n, hn, hi⟩ := convertId_ok_of_str s i hc
    exact ⟨n, hn, hi⟩
  · intro kwargs f h s hs
    obtain ⟨v, i, hv, hc, hid⟩ := filmWorkInit_ok kwargs f h
    rw [hs] at hv
    injection hv with hv
    rw [← hv] at hc
    obtain ⟨n, hn, hi⟩ := convertId_ok_of_str s i hc
    refine ⟨n, hn, ?_⟩
    rw [hid, hi]

/-- Witness for claim C4's amended theorem, applied to the concrete
`genre_film_work` row `cexGfwRow`. -/
theorem c4_amended_witness :
    (⟨Val.vUuid uuidANat, Val.vStr uuidB, Val.vStr uuidC,
        Val.vStr tsA⟩ : GenreFilmWork).genre_id = pyGet cexGfwRow "genre_id" ∧
    (∃ n, parseUUID uuidA = some n ∧
      (⟨Val.vUuid uuidANat, Val.vStr uuidB, Val.vStr uuidC,
        Val.vStr tsA⟩ : GenreFilmWork).id = Val.vUuid n) := by
  have h1 := c4_amended_only_id_normalized.1 cexGfwRow
    ⟨Val.vUuid uuidANat, Val.vStr uuidB, Val.vStr uuidC, Val.vStr tsA⟩
    (by decide)
  exact ⟨h1.1, h1.2.2 uuidA (by decide)⟩

end SqliteToPostgres

namespace SqliteToPostgres

/-- Claim C5: counterexample. Construction does not fail on a wrong
underlying type: a `genre` row whose required `name` field holds an integer
constructs successfully (dataclasses perform no type validation), and a
`FilmWork` mapping missing every required field except `id` also constructs
successfully, with the missing attributes simply left unset. -/
theorem c5_counterexample :
    genreInit c5WrongTypeRow =
      Except.ok ⟨Val.vUuid uuidANat, Val.vInt 5, Val.vNone, Val.vStr tsA,
        Val.vStr tsA⟩ ∧
    filmWorkInit [("id", Val.vStr uuidA)] =
      Except.ok ⟨some (Val.vUuid uuidANat), none, none, none, none, none⟩ :=
  ⟨by decide, by decide⟩

/-- Claim C5 (amended): construction fails only when a required field is
absent (a `TypeError` for the four plain dataclass record types; for
`FilmWork` only a missing `id` fails, with `AttributeError`) or when the
`id` value is a non-convertible UUID string (`ValueError`); values of the
wrong underlying type in other fields are accepted without validation. A
single failing row still aborts the transformer's whole batch. -/
theorem c5_amended_construction_failures :
    (∀ (kwargs : Row) (f : String), f ∈ genreFields →
      pyLookup kwargs f = none →
      genreInit kwargs = Except.error PyErr.typeError) ∧
    (∀ (kwargs : Row) (f : String), f ∈ personFields →
      pyLookup kwargs f = none →
      personInit kwargs = Except.error PyErr.typeError) ∧
    (∀ (kwargs : Row) (f : String), f ∈ genreFilmWorkFields →
      pyLookup kwargs f = none →
      genreFilmWorkInit kwargs = Except.error PyErr.typeError) ∧
    (∀ (kwargs : Row) (f : String), f ∈ personFilmWorkFields →
      pyLookup kwargs f = none →
      personFilmWorkInit kwargs = Except.error PyErr.typeError) ∧
    (∀ kwargs : Row, pyLookup kwargs "id" = none →
      filmWorkInit kwargs = Except.error PyErr.attributeError) ∧
    (∀ (kwargs : Row) (s : String), dataclassCheck genreFields kwargs = true →
      pyGet kwargs "id" = Val.vStr s → parseUUID s = none →
      genreInit kwargs = Except.error PyErr.valueError) ∧
    (∀ (kwargs : Row) (s : String),
      pyLookup kwargs "id" = some (Val.vStr s) → parseUUID s = none →
      filmWorkInit kwargs = Except.error PyErr.valueError) ∧
    (∀ (pre post : List Row) (row : Row) (e : PyErr),
      genreInit row = Except.error e →
      (∀ r ∈ pre, ∃ v, genreInit r = Except.ok v) →
      transformBatch genreInit (pre ++ row :: post) = Except.error e) := by
  refine ⟨?_, ?_, ?_, ?_, ?_, ?_, ?_, ?_⟩
  · intro kwargs f hf h
    unfold genreInit
    rw [dataclassCheck_missing genreFields kwargs f hf h]
    simp
  · intro kwargs f hf h
    unfold personInit
    rw [dataclassCheck_missing personFields kwargs f hf h]
    simp
  · intro kwargs f hf h
    unfold genreFilmWorkInit
    rw [dataclassCheck_missing genreFilmWorkFields kwargs f hf h]
    simp
  · intro kwargs f hf h
    unfold personFilmWorkInit
    rw [dataclassCheck_missing personFilmWorkFields kwargs f hf h]
    simp
  · intro kwargs h
    unfold filmWorkInit filmWorkMake
    rw [pyLookup_filmWorkAttrs_id kwargs, h]
  · intro kwargs s hcheck hid hparse
    unfold genreInit
    rw [hcheck, if_pos rfl, hid, convertId_str_none s hparse]
    rfl
  · intro kwargs s hl hparse
    unfold filmWorkInit
    rw [filmWorkMake_id_some (filmWorkAttrs kwargs) (Val.vStr s)
      (by rw [pyLookup_filmWorkAttrs_id kwargs, hl]),
      convertId_str_none s hparse]
    rfl
  · intro pre post row e hrow hpre
    exact transformBatch_abort genreInit pre post row e hrow hpre

/-- Witness for claim C5's amended theorem, applied at concrete rows: a
`genre` row missing `name`, a `person` row missing `full_name`, junction
rows missing a field, a `FilmWork` row missing `id`, rows with a
non-convertible `id` string, and a batch aborted by one bad row. -/
theorem c5_amended_witness :
    genreInit [("id", Val.vStr uuidA)] = Except.error PyErr.typeError ∧
    personInit [("id", Val.vStr uuidA)] = Except.error PyErr.typeError ∧
    genreFilmWorkInit [("id", Val.vStr uuidA)] =
      Except.error PyErr.typeError ∧
    personFilmWorkInit [("id", Val.vStr uuidA)] =
      Except.error PyErr.typeError ∧
    filmWorkInit [("title", Val.vStr "Star Wars")] =
      Except.error PyErr.attributeError ∧
    genreInit c5BadIdRow = Except.error PyErr.valueError ∧
    filmWorkInit [("id", Val.vStr "not-a-uuid")] =
      Except.error PyErr.valueError ∧
    transformBatch genreInit ([cexGenreRow] ++ c5BadIdRow :: []) =
      Except.error PyErr.valueError :=
  ⟨c5_amended_construction_failures.1 [("id", Val.vStr uuidA)] "name"
      (by decide) (by decide),
    c5_amended_construction_failures.2.1 [("id", Val.vStr uuidA)] "full_name"
      (by decide) (by decide),
    c5_amended_construction_failures.2.2.1 [("id", Val.vStr uuidA)]
      "genre_id" (by decide) (by decide),
    c5_amended_construction_failures.2.2.2.1 [("id", Val.vStr uuidA)] "role"
      (by decide) (by decide),
    c5_amended_construction_failures.2.2.2.2.1
      [("title", Val.vStr "Star Wars")] (by decide),
    c5_amended_construction_failures.2.2.2.2.2.1 c5BadIdRow "not-a-uuid"
      (by decide) (by decide) (by decide),
    c5_amended_construction_failures.2.2.2.2.2.2.1
      [("id", Val.vStr "not-a-uuid")] "not-a-uuid" (by decide) (by decide),
    c5_amended_construction_failures.2.2.2.2.2.2.2 [cexGenreRow] []
      c5BadIdRow PyErr.valueError (by decide)
      (fun r hr => ⟨cexGenre, by rw [List.mem_singleton.mp hr]; decide⟩)⟩

/-- Claim C10 (confirmed): the `FilmWork` the pipeline uses declares exactly
the six fields id, title, description, creation_date, rating, type — no
timestamps — so construction (and hence record equality and film_work
verification) is unchanged by the source row's `created_at`/`updated_at`
columns, the verification query reads back exactly those six columns, and
the eight-field `FilmWork` of `models.py` is a different declaration. -/
theorem c10_filmwork_six_fields :
    filmWorkFields =
      ["id", "title", "description", "creation_date", "rating", "type"] ∧
    filmWorkFields.contains "created_at" = false ∧
    filmWorkFields.contains "updated_at" = false ∧
    (∀ (kwargs : Row) (c u : Val),
      filmWorkInit (kwargs ++ [("created_at", c), ("updated_at", u)]) =
        filmWorkInit kwargs) ∧
    test_transfer_film_work_table.destQuery.columns = filmWorkFields ∧
    Models.filmWorkFields ≠ filmWorkFields ∧
    Models.filmWorkFields.contains "created_at" = true ∧
    Models.filmWorkFields.length = 8 := by
  refine ⟨rfl, by decide, by decide, ?_, rfl, by decide, by decide, rfl⟩
  intro kwargs c u
  unfold filmWorkInit
  congr 1
  unfold filmWorkAttrs
  rw [List.filter_append]
  have h1 : ("created_at" : String) ∉ filmWorkFields := by
    decide
  have h2 : ("updated_at" : String) ∉ filmWorkFields := by
    decide
  have hnil : List.filter (fun kv => filmWorkFields.contains kv.fst)
      [("created_at", c), ("updated_at", u)] = [] := by
    simp [List.filter_cons, h1, h2]
  rw [hnil, List.append_nil]

end SqliteToPostgres
